import Mathlib

/-!
Shallow embedding of the copilot-proxy program (Go), covering the token
lifecycle manager (TokenSource: readiness, refresh scheduling loop) and the
authenticated proxy path (readiness gating, header injection, access gate,
response status tracking), plus the credential-file lookup.

Time is modelled as `Int` Unix seconds (Go `time.Now().Unix()` is `int64`).
HTTP headers are modelled as association lists with Go `Header.Set` /
`Header.Get` semantics (`Set` replaces all values for a key; `Get` returns
the first value, or the empty string when absent).
-/

/-- The decoded token-issuance payload (struct `APIToken` in the source):
`expires_at` and `refresh_in` are `int64`, `token` a string. -/
structure APIToken where
  expiresAt : Int
  refreshIn : Int
  token : String
deriving DecidableEq

/-- The zero value of the Go struct `APIToken`, the state of the token store
before the first successful exchange. -/
def APIToken.zero : APIToken := { expiresAt := 0, refreshIn := 0, token := "" }

/-- `TokenSource.ready`: the stored token is valid iff
`apiToken.ExpiresAt > time.Now().Unix()`. -/
def ready (tok : APIToken) (now : Int) : Bool :=
  decide (tok.expiresAt > now)

/-- HTTP headers, as an association list of (canonical key, value) pairs. -/
abbrev Header := List (String × String)

/-- Go `http.Header.Set`: replaces any existing values for the key. -/
def headerSet (h : Header) (k v : String) : Header :=
  (k, v) :: h.filter (fun p => !(p.1 == k))

/-- Go `http.Header.Get`: first value for the key, or `""` when absent. -/
def headerGet (h : Header) (k : String) : String :=
  match h.find? (fun p => p.1 == k) with
  | some p => p.2
  | none => ""

/-- `TokenSource.CustomHeaders`: stamps the outbound request headers with the
bearer token and the fixed identification headers, via `Header.Set`
(overwriting any client-supplied values). `token` is `ts.Token()`, the stored
`apiToken.Token`. -/
def CustomHeaders (token : String) (header : Header) : Header :=
  let h1 := headerSet header "Authorization" ("Bearer " ++ token)
  let h2 := headerSet h1 "User-Agent" "vscode-chat/dev"
  let h3 := headerSet h2 "Copilot-Integration-Id" "vscode-chat"
  let h4 := headerSet h3 "Editor-Version" "Neovim/0.11.0"
  headerSet h4 "Editor-Plugin-Version" "copilot-chat/0.1.0"

/-- Outcome of a handler on one request: an immediate error response, or the
request is forwarded upstream with the given outbound headers. -/
inductive ProxyOutcome where
  | reject (status : Int) (body : String)
  | forward (outHeader : Header)
deriving DecidableEq

/-- The handler built by `TokenSource.NewProxy`: if `!ts.Ready()` respond
`503 Service not ready` without contacting upstream; otherwise forward with
the rewritten headers (`Rewrite` applies `CustomHeaders` to `r.Out.Header`). -/
def NewProxy (tok : APIToken) (now : Int) (reqHeader : Header) : ProxyOutcome :=
  if !(ready tok now) then .reject 503 "Service not ready"
  else .forward (CustomHeaders tok.token reqHeader)

/-- Outcome of the access-gate middleware on one request: an immediate error
response, or the request reaches the next handler with the given headers. -/
inductive GateOutcome where
  | reject (status : Int) (body : String)
  | next (reqHeader : Header)
deriving DecidableEq

/-- The middleware `verifyAccessToken(token)`: when `token` is empty it is the
identity (returns `next` itself); otherwise it rejects with `401` any request
whose `Authorization` header differs from `"Bearer " + token`. -/
def verifyAccessToken (token : String) (reqHeader : Header) : GateOutcome :=
  if token = "" then .next reqHeader
  else if headerGet reqHeader "Authorization" ≠ "Bearer " ++ token then
    .reject 401 "Invalid access token"
  else .next reqHeader

/-! The refresh scheduler (`TokenSource.Start`). One loop iteration: a select
over the context, the `timeout` timer, the `retry` timer, the closed `first`
channel and the 10-second ticker; the fired one-shot channel is set to nil;
then, if `ts.Ready()` the iteration is skipped, else one exchange is
attempted: on failure `retry = time.After(5s)` and the store is untouched, on
success the token is stored and `timeout = time.After((RefreshIn-10)s)`. -/

/-- Scheduler-visible state: the token store plus the two one-shot timer
channels (absolute fire times; `none` is a nil channel) and the still-open
`first` channel. -/
structure SchedState where
  apiToken : APIToken
  timeout : Option Int
  retry : Option Int
  first : Bool
deriving DecidableEq

/-- The select arm that woke the loop: the `timeout` timer, the `retry`
timer, the closed `first` channel, or the 10-second safety-net ticker. -/
inductive SchedEvent where
  | timeout
  | retry
  | first
  | tick
deriving DecidableEq

/-- A select arm can fire only when its channel is non-nil (and, for a timer,
its fire time has arrived); the ticker always can. -/
def eventFires (s : SchedState) (now : Int) (ev : SchedEvent) : Prop :=
  match ev with
  | .timeout => ∃ t, s.timeout = some t ∧ t ≤ now
  | .retry => ∃ t, s.retry = some t ∧ t ≤ now
  | .first => s.first = true
  | .tick => True

/-- Consuming the fired select arm: the corresponding one-shot channel is set
to nil (`timeout = nil`, `retry = nil`, `first = nil`); the ticker persists. -/
def consumeEvent (s : SchedState) (ev : SchedEvent) : SchedState :=
  match ev with
  | .timeout => { s with timeout := none }
  | .retry => { s with retry := none }
  | .first => { s with first := false }
  | .tick => s

/-- Result of one exchange attempt (`ts.refresh`): failure (transport error,
non-200 status, or decode error) or a decoded token. -/
inductive ExchangeResult where
  | failure
  | success (tok : APIToken)
deriving DecidableEq

/-- One iteration of the `TokenSource.Start` loop, after the select chose
`ev` at time `now`, with `res` the result the exchanger would return if
called. Returns the new state and whether the exchanger was called. -/
def StartStep (s : SchedState) (now : Int) (ev : SchedEvent) (res : ExchangeResult) :
    SchedState × Bool :=
  let s1 := consumeEvent s ev
  if ready s1.apiToken now then (s1, false)
  else
    match res with
    | .failure => ({ s1 with retry := some (now + 5) }, true)
    | .success tok =>
        ({ s1 with apiToken := tok, timeout := some (now + (tok.refreshIn - 10)) }, true)

/-- Running the loop over a sequence of wake-ups whose exchange attempts all
fail. -/
def runFailures (s : SchedState) (evs : List (Int × SchedEvent)) : SchedState :=
  evs.foldl (fun st p => (StartStep st p.1 p.2 .failure).1) s

/-! The exchange response decoding (`TokenSource.refresh`): status check then
`json.Unmarshal` into the `APIToken` struct, with Go decoding semantics. -/

/-- A JSON value (numbers restricted to integers, which is all the
`APIToken` fields use). -/
inductive JSONValue where
  | null
  | bool (b : Bool)
  | num (n : Int)
  | str (s : String)
  | arr (elems : List JSONValue)
  | obj (fields : List (String × JSONValue))

/-- Go `json.Unmarshal` applied to one object member of the `APIToken`
struct: known keys require the matching type (JSON `null` is a no-op), and
unknown keys are ignored. A missing key is simply never visited, leaving the
field at its zero value. -/
def unmarshalField (tok : APIToken) (k : String) (v : JSONValue) : Except Unit APIToken :=
  if k = "expires_at" then
    match v with
    | .num n => .ok { tok with expiresAt := n }
    | .null => .ok tok
    | _ => .error ()
  else if k = "refresh_in" then
    match v with
    | .num n => .ok { tok with refreshIn := n }
    | .null => .ok tok
    | _ => .error ()
  else if k = "token" then
    match v with
    | .str s => .ok { tok with token := s }
    | .null => .ok tok
    | _ => .error ()
  else .ok tok

/-- Folding `unmarshalField` over the members of a JSON object in order
(later duplicates overwrite, as in Go). -/
def unmarshalFields (tok : APIToken) : List (String × JSONValue) → Except Unit APIToken
  | [] => .ok tok
  | (k, v) :: rest =>
    match unmarshalField tok k v with
    | .error e => .error e
    | .ok tok2 => unmarshalFields tok2 rest

/-- Go `json.Unmarshal(data, &apiToken)`: the top level must be an object
(or `null`, a no-op); the target starts at the zero value
(`var apiToken APIToken` in `Start`). -/
def unmarshalAPIToken (v : JSONValue) : Except Unit APIToken :=
  match v with
  | .null => .ok APIToken.zero
  | .obj fields => unmarshalFields APIToken.zero fields
  | _ => .error ()

/-- What the token-issuance round trip produced: a transport failure, or a
status code together with the body — already split into "fails to parse as
JSON" (`Except.error`) or the parsed JSON value. -/
inductive RefreshResponse where
  | transportError
  | response (status : Int) (body : Except Unit JSONValue)

/-- `TokenSource.refresh` after the network call: transport errors fail,
non-200 statuses fail, then the body is unmarshalled into `APIToken`. -/
def refresh (rsp : RefreshResponse) : Except Unit APIToken :=
  match rsp with
  | .transportError => .error ()
  | .response status body =>
    if status ≠ 200 then .error ()
    else
      match body with
      | .error _ => .error ()
      | .ok v => unmarshalAPIToken v

/-- The exchange result the `Start` loop sees for a given network outcome. -/
def exchangeOutcome (rsp : RefreshResponse) : ExchangeResult :=
  match refresh rsp with
  | .error _ => .failure
  | .ok tok => .success tok

/-! The response status recorder (`StatusCodeTracker`). -/

/-- The tracker state: the latched status (`0` = unset, the Go zero value —
never a real HTTP status, which is at least 100) and the `WriteHeader` calls
forwarded to the wrapped `http.ResponseWriter`. -/
structure StatusCodeTracker where
  code : Int
  forwarded : List Int
deriving DecidableEq

/-- `TrackStatusCode(w)`: a fresh tracker with `code: 0` and nothing yet
forwarded. -/
def TrackStatusCode : StatusCodeTracker := { code := 0, forwarded := [] }

/-- `StatusCodeTracker.WriteHeader`: once a nonzero code is latched, later
calls return without touching the underlying writer; the first call latches
the code and forwards it. -/
def StatusCodeTracker.WriteHeader (s : StatusCodeTracker) (c : Int) : StatusCodeTracker :=
  if s.code ≠ 0 then s
  else { code := c, forwarded := s.forwarded ++ [c] }

/-- A handler's whole sequence of `WriteHeader` calls, applied to a fresh
tracker. -/
def writeHeaderRun (codes : List Int) : StatusCodeTracker :=
  codes.foldl StatusCodeTracker.WriteHeader TrackStatusCode

/-! The credential-file lookup (`parseOAuthToken`). -/

/-- One entry of `apps.json` (local struct `TokenObject`). -/
structure TokenObject where
  user : String
  oauthToken : String
deriving DecidableEq

/-- `parseOAuthToken` after decoding `apps.json` into
`map[string]TokenObject`: `for _, obj := range cfg { return obj.OAuthToken, nil }`
returns the first entry of the map's iteration sequence. Go's map iteration
order is unspecified and varies between runs, so `iteration` is a parameter
ranging over the permutations of the decoded entries. -/
def parseOAuthToken (iteration : List (String × TokenObject)) : Except Unit String :=
  match iteration with
  | [] => .error ()
  | (_, obj) :: _ => .ok obj.oauthToken

/-! Helper lemmas about the header model. -/

/-- Dropping entries whose key is `k'` does not change the first entry found
for a different key `k`. -/
theorem find_key_filter (k k' : String) (hk : ¬ k = k') (l : Header) :
    (l.filter (fun p => !(p.1 == k'))).find? (fun p => p.1 == k)
      = l.find? (fun p => p.1 == k) := by
  induction l with
  | nil => rfl
  | cons a t ih =>
    by_cases hak : a.1 = k'
    · have h1 : (a.1 == k') = true := by simp [hak]
      have h2 : (a.1 == k) = false := by
        simp [hak]
        intro h
        exact hk h.symm
      simp [List.filter, List.find?, h1, h2, ih]
    · have h1 : (a.1 == k') = false := by simp [hak]
      by_cases hakk : a.1 = k
      · have h2 : (a.1 == k) = true := by simp [hakk]
        simp [List.filter, List.find?, h1, h2]
      · have h2 : (a.1 == k) = false := by simp [hakk]
        simp [List.filter, List.find?, h1, h2, ih]

/-- Reading back the key just set yields the value set. -/
theorem headerGet_headerSet_self (l : Header) (k v : String) :
    headerGet (headerSet l k v) k = v := by
  simp [headerGet, headerSet, List.find?]

/-- Setting one key leaves reads of a different key unchanged. -/
theorem headerGet_headerSet_other (l : Header) (k k' v : String) (hk : ¬ k = k') :
    headerGet (headerSet l k' v) k = headerGet l k := by
  have h1 : (k' == k) = false := by
    simp
    intro h
    exact hk h.symm
  simp [headerGet, headerSet, List.find?, h1, find_key_filter k k' hk l]

/-- The five headers stamped by `CustomHeaders`, read back: each holds its
injected value whatever the client supplied. -/
theorem CustomHeaders_values (t : String) (r : Header) :
    headerGet (CustomHeaders t r) "Authorization" = "Bearer " ++ t ∧
    headerGet (CustomHeaders t r) "User-Agent" = "vscode-chat/dev" ∧
    headerGet (CustomHeaders t r) "Copilot-Integration-Id" = "vscode-chat" ∧
    headerGet (CustomHeaders t r) "Editor-Version" = "Neovim/0.11.0" ∧
    headerGet (CustomHeaders t r) "Editor-Plugin-Version" = "copilot-chat/0.1.0" := by
  unfold CustomHeaders
  refine ⟨?_, ?_, ?_, ?_, ?_⟩
  · rw [headerGet_headerSet_other _ _ _ _ (by decide), headerGet_headerSet_other _ _ _ _ (by decide),
      headerGet_headerSet_other _ _ _ _ (by decide), headerGet_headerSet_other _ _ _ _ (by decide),
      headerGet_headerSet_self]
  · rw [headerGet_headerSet_other _ _ _ _ (by decide), headerGet_headerSet_other _ _ _ _ (by decide),
      headerGet_headerSet_other _ _ _ _ (by decide), headerGet_headerSet_self]
  · rw [headerGet_headerSet_other _ _ _ _ (by decide), headerGet_headerSet_other _ _ _ _ (by decide),
      headerGet_headerSet_self]
  · rw [headerGet_headerSet_other _ _ _ _ (by decide), headerGet_headerSet_self]
  · rw [headerGet_headerSet_self]

/-- Consuming a select arm never touches the token store. -/
theorem consumeEvent_apiToken (s : SchedState) (ev : SchedEvent) :
    (consumeEvent s ev).apiToken = s.apiToken := by
  cases ev <;> rfl

/-- A loop iteration whose exchange attempt fails leaves the token store
unchanged (also when the iteration was skipped because the token is ready). -/
theorem StartStep_failure_apiToken (s : SchedState) (now : Int) (ev : SchedEvent) :
    (StartStep s now ev .failure).1.apiToken = s.apiToken := by
  simp only [StartStep]
  split
  · exact consumeEvent_apiToken s ev
  · exact consumeEvent_apiToken s ev

/-- A failing exchange arms the retry timer 5 seconds after the failure. -/
theorem StartStep_failure_retry (s : SchedState) (now : Int) (ev : SchedEvent)
    (h : ready s.apiToken now = false) :
    (StartStep s now ev .failure).1.retry = some (now + 5) := by
  simp only [StartStep]
  rw [consumeEvent_apiToken]
  simp [h]

/-- Any number of consecutive failing iterations leaves the token store
unchanged. -/
theorem runFailures_apiToken (evs : List (Int × SchedEvent)) (s : SchedState) :
    (runFailures s evs).apiToken = s.apiToken := by
  induction evs generalizing s with
  | nil => rfl
  | cons p rest ih =>
      have h1 : runFailures s (p :: rest) = runFailures (StartStep s p.1 p.2 .failure).1 rest := rfl
      rw [h1, ih, StartStep_failure_apiToken]

/-- A successful exchange (attempted because the stored token was not ready)
stores the new token and arms the refresh timer `refreshIn - 10` seconds
ahead. -/
theorem StartStep_success (s : SchedState) (now : Int) (ev : SchedEvent) (tok : APIToken)
    (h : ready s.apiToken now = false) :
    (StartStep s now ev (.success tok)).1.apiToken = tok ∧
    (StartStep s now ev (.success tok)).1.timeout = some (now + (tok.refreshIn - 10)) := by
  simp only [StartStep]
  rw [consumeEvent_apiToken]
  simp [h]

/-- C1: if the stored token is not valid at the moment the proxy handler
runs, the handler responds 503 Service Unavailable and the upstream is never
contacted; conversely a request is forwarded only when the token is valid. -/
theorem NewProxy_requires_valid_token (tok : APIToken) (now : Int) (reqHeader : Header) :
    (ready tok now = false → NewProxy tok now reqHeader = .reject 503 "Service not ready") ∧
    (∀ out, NewProxy tok now reqHeader = .forward out → ready tok now = true) := by
  constructor
  · intro h
    simp [NewProxy, h]
  · intro out h
    cases hr : ready tok now
    · simp [NewProxy, hr] at h
    · rfl

/-- Witness for C1 at a concrete expired token. -/
theorem NewProxy_requires_valid_token_witness :
    NewProxy APIToken.zero 5 [] = .reject 503 "Service not ready" :=
  (NewProxy_requires_valid_token APIToken.zero 5 []).1 (by decide)

/-- C2: a request proxied while the token is valid is forwarded with
`Authorization: Bearer <stored token>` and the four fixed identification
headers, all overwriting any client-supplied values. -/
theorem NewProxy_injects_headers (tok : APIToken) (now : Int) (reqHeader : Header)
    (h : ready tok now = true) :
    NewProxy tok now reqHeader = .forward (CustomHeaders tok.token reqHeader) ∧
    headerGet (CustomHeaders tok.token reqHeader) "Authorization" = "Bearer " ++ tok.token ∧
    headerGet (CustomHeaders tok.token reqHeader) "User-Agent" = "vscode-chat/dev" ∧
    headerGet (CustomHeaders tok.token reqHeader) "Copilot-Integration-Id" = "vscode-chat" ∧
    headerGet (CustomHeaders tok.token reqHeader) "Editor-Version" = "Neovim/0.11.0" ∧
    headerGet (CustomHeaders tok.token reqHeader) "Editor-Plugin-Version" = "copilot-chat/0.1.0" := by
  refine ⟨by simp [NewProxy, h], CustomHeaders_values tok.token reqHeader⟩

/-- Witness for C2: a ready token and a client that supplied its own
`Authorization` header. -/
theorem NewProxy_injects_headers_witness :
    NewProxy ⟨100, 600, "t1"⟩ 5 [("Authorization", "Bearer evil")] =
      .forward (CustomHeaders "t1" [("Authorization", "Bearer evil")]) ∧
    headerGet (CustomHeaders "t1" [("Authorization", "Bearer evil")]) "Authorization"
      = "Bearer " ++ "t1" ∧
    headerGet (CustomHeaders "t1" [("Authorization", "Bearer evil")]) "User-Agent"
      = "vscode-chat/dev" ∧
    headerGet (CustomHeaders "t1" [("Authorization", "Bearer evil")]) "Copilot-Integration-Id"
      = "vscode-chat" ∧
    headerGet (CustomHeaders "t1" [("Authorization", "Bearer evil")]) "Editor-Version"
      = "Neovim/0.11.0" ∧
    headerGet (CustomHeaders "t1" [("Authorization", "Bearer evil")]) "Editor-Plugin-Version"
      = "copilot-chat/0.1.0" :=
  NewProxy_injects_headers ⟨100, 600, "t1"⟩ 5 [("Authorization", "Bearer evil")] (by decide)

/-- C3: with a configured (non-empty) access token, the gate rejects with 401
every request whose `Authorization` header is not exactly
`Bearer <configured token>` (such a request never reaches the proxy handler),
and passes matching requests through; with no token configured it passes
every request through unchanged. -/
theorem verifyAccessToken_gate (token : String) (reqHeader : Header) :
    (token = "" → verifyAccessToken token reqHeader = .next reqHeader) ∧
    (token ≠ "" → headerGet reqHeader "Authorization" ≠ "Bearer " ++ token →
      verifyAccessToken token reqHeader = .reject 401 "Invalid access token") ∧
    (token ≠ "" → headerGet reqHeader "Authorization" = "Bearer " ++ token →
      verifyAccessToken token reqHeader = .next reqHeader) := by
  refine ⟨?_, ?_, ?_⟩
  · intro h
    simp [verifyAccessToken, h]
  · intro h1 h2
    simp [verifyAccessToken, h1, h2]
  · intro h1 h2
    simp [verifyAccessToken, h1, h2]

/-- Witness for C3: empty token passes through; wrong and right bearer values
with a configured token. -/
theorem verifyAccessToken_gate_witness :
    verifyAccessToken "" [] = .next [] ∧
    verifyAccessToken "s3cr3t" [] = .reject 401 "Invalid access token" ∧
    verifyAccessToken "s3cr3t" [("Authorization", "Bearer s3cr3t")]
      = .next [("Authorization", "Bearer s3cr3t")] :=
  ⟨(verifyAccessToken_gate "" []).1 rfl,
   (verifyAccessToken_gate "s3cr3t" []).2.1 (by decide) (by decide),
   (verifyAccessToken_gate "s3cr3t" [("Authorization", "Bearer s3cr3t")]).2.2
     (by decide) (by decide)⟩

/-- C4: every failed exchange (transport failure, non-200 status, or decode
failure) leaves the stored token unchanged and arms the retry timer at a
fixed 5 seconds after the failure; any number of consecutive failures leaves
the stored token unchanged. -/
theorem failed_exchange_preserves_token (s : SchedState) (now : Int) (ev : SchedEvent)
    (rsp : RefreshResponse) (hr : refresh rsp = .error ()) :
    (StartStep s now ev (exchangeOutcome rsp)).1.apiToken = s.apiToken ∧
    (ready s.apiToken now = false →
      (StartStep s now ev (exchangeOutcome rsp)).1.retry = some (now + 5)) ∧
    (∀ evs : List (Int × SchedEvent), (runFailures s evs).apiToken = s.apiToken) := by
  have ho : exchangeOutcome rsp = .failure := by
    simp [exchangeOutcome, hr]
  rw [ho]
  exact ⟨StartStep_failure_apiToken s now ev,
    fun h => StartStep_failure_retry s now ev h,
    fun evs => runFailures_apiToken evs s⟩

/-- Witness for C4: a 500 issuance response at the first wake-up, then three
more failing wake-ups. -/
theorem failed_exchange_preserves_token_witness :
    (StartStep ⟨APIToken.zero, none, none, true⟩ 0 .first
        (exchangeOutcome (.response 500 (.error ())))).1.apiToken = APIToken.zero ∧
    (StartStep ⟨APIToken.zero, none, none, true⟩ 0 .first
        (exchangeOutcome (.response 500 (.error ())))).1.retry = some (0 + 5) ∧
    (runFailures ⟨APIToken.zero, none, none, true⟩
        [(0, .first), (5, .retry), (10, .tick)]).apiToken = APIToken.zero := by
  have h := failed_exchange_preserves_token ⟨APIToken.zero, none, none, true⟩ 0 .first
    (.response 500 (.error ())) rfl
  exact ⟨h.1, h.2.1 (by decide), h.2.2 [(0, .first), (5, .retry), (10, .tick)]⟩

/-- C5 counterexample: with `refresh_in = 10` the wake time computed at
`now = 0` is `some 0`, i.e. exactly `now` — the delay `refreshIn - 10` is
zero, not positive, so the claimed positive floor
`max(refreshAfterSeconds - 10, minimalPositiveDelay)` does not exist in the
code. -/
theorem refresh_delay_not_positive_counterexample :
    (StartStep ⟨APIToken.zero, none, none, true⟩ 0 .first
        (.success ⟨600, 10, "t"⟩)).1.timeout = some 0 ∧
    ¬ ((0 : Int) < 0) := by
  exact ⟨by decide, by decide⟩

/-- C5 amended: after every successful exchange the scheduler stores the new
token and schedules the next wake exactly `refreshAfterSeconds - 10` seconds
later, with no positive floor: the delay is zero or negative whenever
`refreshAfterSeconds ≤ 10` (the Go timer then fires immediately). -/
theorem successful_exchange_schedules_wake (s : SchedState) (now : Int) (ev : SchedEvent)
    (tok : APIToken) (h : ready s.apiToken now = false) :
    (StartStep s now ev (.success tok)).1.apiToken = tok ∧
    (StartStep s now ev (.success tok)).1.timeout = some (now + (tok.refreshIn - 10)) :=
  StartStep_success s now ev tok h

/-- Witness for C5 (amended) at a concrete first exchange. -/
theorem successful_exchange_schedules_wake_witness :
    (StartStep ⟨APIToken.zero, none, none, true⟩ 0 .first
        (.success ⟨600, 600, "t"⟩)).1.apiToken = ⟨600, 600, "t"⟩ ∧
    (StartStep ⟨APIToken.zero, none, none, true⟩ 0 .first
        (.success ⟨600, 600, "t"⟩)).1.timeout = some (0 + (600 - 10)) :=
  successful_exchange_schedules_wake ⟨APIToken.zero, none, none, true⟩ 0 .first
    ⟨600, 600, "t"⟩ (by decide)

/-- C6 counterexample: a successful exchange performed at time 100 whose
payload carries `expires_at = 50` is stored as-is, and `Ready()` is false
immediately after the write — the code never checks that the returned expiry
lies in the future. -/
theorem stale_expiry_stored_counterexample :
    (StartStep ⟨APIToken.zero, none, none, true⟩ 100 .first
        (.success ⟨50, 600, "t"⟩)).1.apiToken = ⟨50, 600, "t"⟩ ∧
    ready ⟨50, 600, "t"⟩ 100 = false := by
  exact ⟨by decide, by decide⟩

/-- C6 amended: after each successful write the store holds exactly the
exchanged token; `Ready()` immediately after the write is true iff the write
time is strictly before the token's `expires_at` (not guaranteed by the
code); `Ready()` is false at or after `expiresAt`; and the all-zero/unset
token is never valid at any nonnegative instant. -/
theorem token_validity_after_write (s : SchedState) (now : Int) (ev : SchedEvent)
    (tok : APIToken) (h : ready s.apiToken now = false) :
    (StartStep s now ev (.success tok)).1.apiToken = tok ∧
    (ready tok now = true ↔ now < tok.expiresAt) ∧
    (∀ m : Int, tok.expiresAt ≤ m → ready tok m = false) ∧
    (∀ m : Int, 0 ≤ m → ready APIToken.zero m = false) := by
  refine ⟨(StartStep_success s now ev tok h).1, ?_, ?_, ?_⟩
  · simp [ready]
  · intro m hm
    simp [ready]
    exact hm
  · intro m hm
    simp [ready, APIToken.zero]
    exact hm

/-- Witness for C6 (amended): a token written at time 0 with expiry 600 is
stored; it is invalid at its expiry instant; the unset token is invalid at
time 0. -/
theorem token_validity_after_write_witness :
    (StartStep ⟨APIToken.zero, none, none, true⟩ 0 .first
        (.success ⟨600, 600, "t"⟩)).1.apiToken = ⟨600, 600, "t"⟩ ∧
    ready ⟨600, 600, "t"⟩ 600 = false ∧
    ready APIToken.zero 0 = false := by
  have h := token_validity_after_write ⟨APIToken.zero, none, none, true⟩ 0 .first
    ⟨600, 600, "t"⟩ (by decide)
  exact ⟨h.1, h.2.2.1 600 (by decide), h.2.2.2 0 (by decide)⟩

/-- C9: on every wake-up the exchanger is called iff the stored token is not
ready at that instant; when `Ready()` is true the iteration only clears the
fired one-shot channel and changes nothing else — in particular the
proactive wake scheduled at `refreshIn - 10` is skipped while the token is
still valid. -/
theorem StartStep_skips_when_ready (s : SchedState) (now : Int) (ev : SchedEvent)
    (res : ExchangeResult) :
    ((StartStep s now ev res).2 = true ↔ ready s.apiToken now = false) ∧
    (ready s.apiToken now = true → (StartStep s now ev res).1 = consumeEvent s ev) := by
  cases hr : ready s.apiToken now
  · refine ⟨?_, ?_⟩
    · cases res <;> simp [StartStep, consumeEvent_apiToken, hr]
    · intro h
      simp at h
  · refine ⟨?_, ?_⟩
    · simp [StartStep, consumeEvent_apiToken, hr]
    · intro _
      simp [StartStep, consumeEvent_apiToken, hr]

/-- Witness for C9: token valid until 1000, proactive wake fires at 590
(600 - 10): the iteration is skipped and the exchanger is not called. -/
theorem StartStep_skips_when_ready_witness :
    ((StartStep ⟨⟨1000, 600, "t"⟩, some 590, none, false⟩ 590 .timeout .failure).2 = true
      ↔ ready ⟨1000, 600, "t"⟩ 590 = false) ∧
    (StartStep ⟨⟨1000, 600, "t"⟩, some 590, none, false⟩ 590 .timeout .failure).1
      = consumeEvent ⟨⟨1000, 600, "t"⟩, some 590, none, false⟩ .timeout := by
  have h := StartStep_skips_when_ready ⟨⟨1000, 600, "t"⟩, some 590, none, false⟩ 590
    .timeout .failure
  exact ⟨h.1, h.2 (by decide)⟩

/-- C7 counterexample: a 200 response whose body is the JSON object `{}` —
missing all three of `token`, `expires_at` and `refresh_in` — decodes
successfully to the zero token instead of failing: Go `json.Unmarshal` does
not require any struct field to be present. -/
theorem missing_fields_decode_ok_counterexample :
    refresh (.response 200 (.ok (.obj []))) = .ok APIToken.zero := rfl

/-- C7 amended: the exchange fails on transport errors, on any non-200
status, on a 200 body that does not parse as JSON, on a 200 body whose
top-level JSON value is neither an object nor `null` (a boolean, number,
string or array), and on a 200 JSON object whose `token`, `expires_at` or
`refresh_in` member has the wrong type; a top-level `null` succeeds as a
no-op, leaving the zero token; a JSON object may omit any of the three
fields — the exchange then succeeds with the zero value for the missing
ones; a well-formed triple decodes verbatim. -/
theorem refresh_decode_behavior :
    (refresh .transportError = .error ()) ∧
    (∀ st : Int, st ≠ 200 → ∀ body, refresh (.response st body) = .error ()) ∧
    (refresh (.response 200 (.error ())) = .error ()) ∧
    (∀ b : Bool, refresh (.response 200 (.ok (.bool b))) = .error ()) ∧
    (∀ n : Int, refresh (.response 200 (.ok (.num n))) = .error ()) ∧
    (∀ s : String, refresh (.response 200 (.ok (.str s))) = .error ()) ∧
    (∀ elems : List JSONValue, refresh (.response 200 (.ok (.arr elems))) = .error ()) ∧
    (refresh (.response 200 (.ok .null)) = .ok APIToken.zero) ∧
    (refresh (.response 200 (.ok (.obj [("token", .num 3)]))) = .error ()) ∧
    (refresh (.response 200 (.ok (.obj [("expires_at", .str "x")]))) = .error ()) ∧
    (refresh (.response 200 (.ok (.obj [("refresh_in", .bool true)]))) = .error ()) ∧
    (∀ s : String, ∀ n r : Int,
      refresh (.response 200 (.ok (.obj
        [("token", .str s), ("expires_at", .num n), ("refresh_in", .num r)])))
        = .ok { expiresAt := n, refreshIn := r, token := s }) ∧
    (refresh (.response 200 (.ok (.obj []))) = .ok APIToken.zero) := by
  refine ⟨rfl, ?_, rfl, fun b => rfl, fun n => rfl, fun s => rfl, fun elems => rfl,
    rfl, rfl, rfl, rfl, fun s n r => rfl, rfl⟩
  intro st hst body
  simp only [refresh]
  rw [if_pos hst]

/-- Witness for C7 (amended): a 500 response fails; a well-formed 200 body
decodes to its three fields. -/
theorem refresh_decode_behavior_witness :
    refresh (.response 500 (.ok (.obj []))) = .error () ∧
    refresh (.response 200 (.ok (.obj
        [("token", .str "t1"), ("expires_at", .num 600), ("refresh_in", .num 300)])))
      = .ok { expiresAt := 600, refreshIn := 300, token := "t1" } := by
  obtain ⟨-, h2, -, -, -, -, -, -, -, -, -, h12, -⟩ := refresh_decode_behavior
  exact ⟨h2 500 (by decide) (.ok (.obj [])), h12 "t1" 600 300⟩

/-- Once a nonzero status is latched, any further `WriteHeader` calls leave
the tracker (and the underlying writer) untouched. -/
theorem foldl_WriteHeader_latched (s : StatusCodeTracker) (hs : s.code ≠ 0) (l : List Int) :
    l.foldl StatusCodeTracker.WriteHeader s = s := by
  induction l with
  | nil => rfl
  | cons c rest ih =>
      have h1 : StatusCodeTracker.WriteHeader s c = s := by
        simp [StatusCodeTracker.WriteHeader, hs]
      simp only [List.foldl, h1]
      exact ih

/-- C8: for any sequence of `WriteHeader` calls whose first code is a real
HTTP status (nonzero — the zero value is the tracker's unset sentinel and not
a valid status), the tracker records exactly the first code and the
underlying writer receives only that first call; all later writes are
ignored. -/
theorem tracker_first_write_wins (c : Int) (rest : List Int) (hc : c ≠ 0) :
    (writeHeaderRun (c :: rest)).code = c ∧
    (writeHeaderRun (c :: rest)).forwarded = [c] := by
  have h0 : StatusCodeTracker.WriteHeader TrackStatusCode c
      = { code := c, forwarded := [c] } := by
    simp [StatusCodeTracker.WriteHeader, TrackStatusCode]
  have h1 : writeHeaderRun (c :: rest)
      = rest.foldl StatusCodeTracker.WriteHeader { code := c, forwarded := [c] } := by
    simp only [writeHeaderRun, List.foldl, h0]
  rw [h1, foldl_WriteHeader_latched { code := c, forwarded := [c] } hc rest]
  exact ⟨rfl, rfl⟩

/-- Witness for C8: writing 200 then attempting 500 records 200, and the
underlying writer sees only the 200. -/
theorem tracker_first_write_wins_witness :
    (writeHeaderRun [200, 500]).code = 200 ∧
    (writeHeaderRun [200, 500]).forwarded = [200] :=
  tracker_first_write_wins 200 [500] (by decide)

/-- C10: the credential selected from a multi-entry `apps.json` is not a
deterministic function of the file contents: two iteration sequences of the
same decoded map (Go map iteration order is unspecified and varies between
runs) make `parseOAuthToken` return the `oauth_token` of different entries. -/
theorem parseOAuthToken_order_dependent :
    ∃ (entries order1 order2 : List (String × TokenObject)),
      order1.Perm entries ∧ order2.Perm entries ∧
      parseOAuthToken order1 ≠ parseOAuthToken order2 := by
  refine ⟨[("a", ⟨"u1", "tok1"⟩), ("b", ⟨"u2", "tok2"⟩)],
    [("a", ⟨"u1", "tok1"⟩), ("b", ⟨"u2", "tok2"⟩)],
    [("b", ⟨"u2", "tok2"⟩), ("a", ⟨"u1", "tok1"⟩)],
    List.Perm.refl _, List.Perm.swap _ _ _, ?_⟩
  intro h
  simp [parseOAuthToken] at h
